import Mathlib

/-!
Verification of the Prismo GitHub API client layer.

This file shallowly embeds the code of `src/prismo/api/utils/dates.py`,
`src/prismo/api/github.py` and `src/prismo/exts/api/github.py`:

* JSON values as delivered by `response.json()` are modelled by `JVal`;
  Python runtime failures (`KeyError`, `AttributeError`, `TypeError`,
  `ValueError`) by `PyErr`.
* `datetime.strptime(s, "%Y-%m-%dT%H:%M:%SZ")` is modelled by `strptimeZ`,
  following CPython's `_strptime` regular expression for that format
  string: the year is exactly four digits, while month, day, hour, minute
  and second each match one or two digits with the ranges of the CPython
  sub-patterns, and the `datetime` constructor afterwards validates the
  year, the day against the month length, and the second.
* The two (textually identical) `convert_to_date` functions are embedded
  twice, as `Dates.convert_to_date` and `ExtsApi.convert_to_date`.
* `fetch_repository` and `fetch_issue_or_pr` become functions from the
  response status and body to `Except PyErr` records.  The status argument
  is present because every claim speaks about it; the Python code never
  reads `response.status`, which the embedding mirrors by not using it.
* The compiled `AUTOMATIC_REGEX` pattern and `re.finditer` scanning are
  modelled by `findRefs`.
-/

namespace Prismo

/-- A JSON value as produced by `response.json()` in aiohttp. -/
inductive JVal where
  | null : JVal
  | bool : Bool → JVal
  | num : Int → JVal
  | str : String → JVal
  | arr : List JVal → JVal
  | obj : List (String × JVal) → JVal

/-- Python runtime errors that the embedded code can raise. -/
inductive PyErr where
  | keyError : String → PyErr
  | attributeError : PyErr
  | typeError : PyErr
  | valueError : PyErr
deriving DecidableEq

/-- Python truthiness of a JSON-decoded value (`if not date: ...`). -/
def pyTruthy : JVal → Bool
  | .null => false
  | .bool b => b
  | .num n => n != 0
  | .str s => !s.data.isEmpty
  | .arr l => !l.isEmpty
  | .obj l => !l.isEmpty

/-- Key lookup in a decoded JSON object (Python `dict` lookup). -/
def jlookup : List (String × JVal) → String → Option JVal
  | [], _ => none
  | (k, v) :: rest, key => if k = key then some v else jlookup rest key

/-- `data.get(key)` where `data` is known to be a decoded JSON object.
The fetch functions only call `.get` on `data` after `data[...]` has
already succeeded, so `data` is an object on every reachable call; on a
non-object this total model returns `none`. -/
def jget : JVal → String → Option JVal
  | .obj fields, key => jlookup fields key
  | _, _ => none

/-- `data[key]`: `KeyError` when the key is absent, `TypeError` when the
value is not a dict (e.g. the endpoint returned a JSON array). -/
def pyIndex : JVal → String → Except PyErr JVal
  | .obj fields, key =>
    match jlookup fields key with
    | some v => .ok v
    | none => .error (.keyError key)
  | _, _ => .error .typeError

/-- `v.get(key)` on an arbitrary value: `AttributeError` unless `v` is a
dict (in Python, `None.get`, `"x".get`, `1 .get` all raise). -/
def pyGetAttr : JVal → String → Except PyErr (Option JVal)
  | .obj fields, key => .ok (jlookup fields key)
  | _, _ => .error .attributeError

/-- `key in data.keys()`. -/
def pyHasKey : JVal → String → Bool
  | .obj fields, key => (jlookup fields key).isSome
  | _, _ => false

/-- The result of a successful `datetime.strptime` call: a naive
timestamp, one field per format directive. -/
structure PyDateTime where
  year : Nat
  month : Nat
  day : Nat
  hour : Nat
  minute : Nat
  second : Nat
deriving DecidableEq

/-- Numeric value of a digit character. -/
def digitVal (c : Char) : Nat := c.toNat - 48

/-- `%Y` in CPython `_strptime`: exactly four digits. -/
def readYear4 : List Char → Option (Nat × List Char)
  | a :: b :: c :: d :: rest =>
    if a.isDigit && b.isDigit && c.isDigit && d.isDigit then
      some (1000 * digitVal a + 100 * digitVal b + 10 * digitVal c + digitVal d, rest)
    else none
  | _ => none

/-- A two-or-one digit numeric directive (`%m`, `%d`, `%H`, `%M`, `%S`).
CPython's sub-patterns take two digits when two are available and one
otherwise; because every directive here is followed by a non-digit
literal, the regex backtracking never prefers the one-digit reading when
two digits are present.  Returns the width taken, the value, and the rest. -/
def readNum2 : List Char → Option (Nat × Nat × List Char)
  | c1 :: c2 :: rest =>
    if c1.isDigit then
      if c2.isDigit then some (2, 10 * digitVal c1 + digitVal c2, rest)
      else some (1, digitVal c1, c2 :: rest)
    else none
  | [c1] => if c1.isDigit then some (1, digitVal c1, []) else none
  | [] => none

/-- A literal character of the format string.  CPython compiles the
format regex with `re.IGNORECASE`, so a letter literal also matches its
other case; `lo` is the lowercase form (equal to `up` for `-` and `:`). -/
def readLit (up lo : Char) : List Char → Option (List Char)
  | x :: rest => if x = up || x = lo then some rest else none
  | [] => none

/-- The range constraint of a CPython numeric sub-pattern: a two-digit
match must lie in `[lo2, hi2]`, a one-digit match must be at least `lo1`
(`[1-9]` for month and day, any digit elsewhere). -/
def fieldOK (w v lo2 hi2 lo1 : Nat) : Bool :=
  if w = 2 then lo2 ≤ v && v ≤ hi2 else lo1 ≤ v

/-- The regular-expression phase of
`datetime.strptime(s, "%Y-%m-%dT%H:%M:%SZ")`: the six numeric fields in
CPython sub-pattern ranges, with the whole string consumed. -/
def strptimeFields (l : List Char) : Option (Nat × Nat × Nat × Nat × Nat × Nat) :=
  match readYear4 l with
  | none => none
  | some (y, r1) =>
    match readLit '-' '-' r1 with
    | none => none
    | some r2 =>
      match readNum2 r2 with
      | none => none
      | some (wmo, mo, r3) =>
        if fieldOK wmo mo 1 12 1 then
          match readLit '-' '-' r3 with
          | none => none
          | some r4 =>
            match readNum2 r4 with
            | none => none
            | some (wd, d, r5) =>
              if fieldOK wd d 1 31 1 then
                match readLit 'T' 't' r5 with
                | none => none
                | some r6 =>
                  match readNum2 r6 with
                  | none => none
                  | some (wh, h, r7) =>
                    if fieldOK wh h 0 23 0 then
                      match readLit ':' ':' r7 with
                      | none => none
                      | some r8 =>
                        match readNum2 r8 with
                        | none => none
                        | some (wmi, mi, r9) =>
                          if fieldOK wmi mi 0 59 0 then
                            match readLit ':' ':' r9 with
                            | none => none
                            | some r10 =>
                              match readNum2 r10 with
                              | none => none
                              | some (ws, se, r11) =>
                                if fieldOK ws se 0 61 0 then
                                  match readLit 'Z' 'z' r11 with
                                  | none => none
                                  | some [] => some (y, mo, d, h, mi, se)
                                  | some (_ :: _) => none
                                else none
                          else none
                    else none
              else none
        else none

/-- Gregorian leap-year rule, as used by `datetime`. -/
def isLeapYear (y : Nat) : Bool := y % 4 = 0 && (y % 100 != 0 || y % 400 = 0)

/-- Length of a month, as validated by the `datetime` constructor. -/
def daysInMonth (y m : Nat) : Nat :=
  if m = 2 then (if isLeapYear y then 29 else 28)
  else if m = 4 || m = 6 || m = 9 || m = 11 then 30
  else 31

/-- `datetime.strptime(s, "%Y-%m-%dT%H:%M:%SZ")`: the regex phase
followed by the `datetime(...)` constructor checks (`MINYEAR`, the day
against the month length, and the second, which the regex alone allows up
to 61). -/
def strptimeZ (s : String) : Option PyDateTime :=
  match strptimeFields s.data with
  | none => none
  | some (y, mo, d, h, mi, se) =>
    if 1 ≤ y && d ≤ daysInMonth y mo && se ≤ 59 then
      some ⟨y, mo, d, h, mi, se⟩
    else none

namespace Dates

/-- `convert_to_date` from `src/prismo/api/utils/dates.py`:
`if not date: return None; return datetime.strptime(date, "%Y-%m-%dT%H:%M:%SZ")`.
A falsy argument (absent key, JSON `null`, empty string) yields `None`; a
truthy non-string raises `TypeError` inside `strptime`; a truthy string
that the format does not accept raises `ValueError`. -/
def convert_to_date (date : Option JVal) : Except PyErr (Option PyDateTime) :=
  match date with
  | none => .ok none
  | some v =>
    if pyTruthy v then
      match v with
      | .str s =>
        match strptimeZ s with
        | some d => .ok (some d)
        | none => .error .valueError
      | _ => .error .typeError
    else .ok none

end Dates

namespace ExtsApi

/-- `convert_to_date` as defined inline in `src/prismo/exts/api/github.py`
(lines 34-37), textually identical to the one in
`src/prismo/api/utils/dates.py`. -/
def convert_to_date (date : Option JVal) : Except PyErr (Option PyDateTime) :=
  match date with
  | none => .ok none
  | some v =>
    if pyTruthy v then
      match v with
      | .str s =>
        match strptimeZ s with
        | some d => .ok (some d)
        | none => .error .valueError
      | _ => .error .typeError
    else .ok none

end ExtsApi

/-- `GitHubInfoType` (both copies of `github.py`). -/
inductive GitHubInfoType where
  | issue : GitHubInfoType
  | pull_request : GitHubInfoType
deriving DecidableEq

/-- `GitHubUserType` (both copies of `github.py`). -/
inductive GitHubUserType where
  | user : GitHubUserType
  | organization : GitHubUserType
deriving DecidableEq

/-- `GitHubUser`.  The string-annotated fields hold whatever JSON value
`author.get(...)` produced (possibly `None`); attrs does not enforce the
annotations. -/
structure GitHubUser where
  user_type : GitHubUserType
  name : Option JVal
  avatar_url : Option JVal
  profile_url : Option JVal

/-- `GitHubRepoStats`.  The three `attrs.field(converter=convert_to_date)`
fields hold the converter's result; `created_at` is annotated `datetime`
but the converter can still return `None`. -/
structure GitHubRepoStats where
  forks_count : Option JVal
  stars : Option JVal
  default_branch : Option JVal
  open_issues_and_prs : Option JVal
  topics : Option JVal
  archived : Option JVal
  pushed_at : Option PyDateTime
  created_at : Option PyDateTime
  updated_at : Option PyDateTime

/-- `GitHubRepo`. -/
structure GitHubRepo where
  full_name : Option JVal
  description : Option JVal
  fork : Option JVal
  owner : GitHubUser
  url : Option JVal
  stats : GitHubRepoStats

/-- `GitHubInfo`. -/
structure GitHubInfo where
  info_type : GitHubInfoType
  url : Option JVal
  comments_url : Option JVal
  number : Option JVal
  state : Option JVal
  state_reason : Option JVal
  title : Option JVal
  description : Option JVal
  number_of_comments : Option JVal
  closed_at : Option PyDateTime
  created_at : Option PyDateTime
  updated_at : Option PyDateTime
  author : GitHubUser

/-- The owner/author `type` mapping, written identically at
`src/prismo/api/github.py:110-113` and `:157-160` (and in the `exts`
copy): `GitHubUserType.user if author.get("type") == "User" else
GitHubUserType.organization`. -/
def mapUserType : Option JVal → GitHubUserType
  | some (.str s) => if s = "User" then .user else .organization
  | _ => .organization

/-- `fetch_repository` (`src/prismo/api/github.py:100-130`, identical in
`src/prismo/exts/api/github.py:135-165`), as a function of the HTTP
response status and the decoded JSON body.  The Python code never reads
`response.status`, so the `st` argument is unused.  Failure points, in
Python evaluation order: `data["owner"]`, then the four
`author.get(...)` calls while the `owner=GitHubUser(...)` argument is
built, then the three date converters, which attrs runs in field order
(`pushed_at`, `created_at`, `updated_at`). -/
def fetch_repository (st : Nat) (data : JVal) : Except PyErr GitHubRepo := do
  let author ← pyIndex data "owner"
  let otype ← pyGetAttr author "type"
  let ologin ← pyGetAttr author "login"
  let oavatar ← pyGetAttr author "avatar_url"
  let ohtml ← pyGetAttr author "html_url"
  let pushed ← Dates.convert_to_date (jget data "pushed_at")
  let created ← Dates.convert_to_date (jget data "created_at")
  let updated ← Dates.convert_to_date (jget data "updated_at")
  pure
    { full_name := jget data "full_name"
      description := jget data "description"
      fork := jget data "fork"
      owner :=
        { user_type := mapUserType otype
          name := ologin
          avatar_url := oavatar
          profile_url := ohtml }
      url := jget data "html_url"
      stats :=
        { forks_count := jget data "forks_count"
          stars := jget data "stargazers_count"
          default_branch := jget data "default_branch"
          open_issues_and_prs := jget data "open_issues"
          topics := jget data "topics"
          archived := jget data "archived"
          pushed_at := pushed
          created_at := created
          updated_at := updated } }

/-- `fetch_issue_or_pr` (`src/prismo/api/github.py:132-165`, identical in
`src/prismo/exts/api/github.py:167-200`).  Failure points, in Python
evaluation order: `data["user"]`, then the `url` argument
`(data.get("pull_request")).get("url")` when the `pull_request` key is
present, then the four `author.get(...)` calls, then the converters in
attrs field order (`closed_at`, `created_at`, `updated_at`). -/
def fetch_issue_or_pr (st : Nat) (data : JVal) : Except PyErr GitHubInfo := do
  let author ← pyIndex data "user"
  let url ←
    if pyHasKey data "pull_request" then
      match jget data "pull_request" with
      | some pr => pyGetAttr pr "url"
      | none => .error .attributeError
    else pure (jget data "url")
  let otype ← pyGetAttr author "type"
  let ologin ← pyGetAttr author "login"
  let oavatar ← pyGetAttr author "avatar_url"
  let ohtml ← pyGetAttr author "html_url"
  let closed ← Dates.convert_to_date (jget data "closed_at")
  let created ← Dates.convert_to_date (jget data "created_at")
  let updated ← Dates.convert_to_date (jget data "updated_at")
  pure
    { info_type := if pyHasKey data "pull_request" then .pull_request else .issue
      url := url
      comments_url := jget data "comments_url"
      number := jget data "number"
      state := jget data "state"
      state_reason := jget data "state_reason"
      title := jget data "title"
      description := jget data "body"
      number_of_comments := jget data "comments"
      closed_at := closed
      created_at := created
      updated_at := updated
      author :=
        { user_type := mapUserType otype
          name := ologin
          avatar_url := oavatar
          profile_url := ohtml } }

/-- The aiohttp `ClientSession` created by `setup`: its base URL and
default headers. -/
structure ClientSession where
  base : String
  headers : List (String × String)
deriving DecidableEq

/-- The mutable attributes of a `GitHubAPIClient`
(`src/prismo/exts/api/github.py:102-133`): `_setted_up` is set by
`__init__`, `_token` and `_session` only exist after `setup`. -/
structure GitHubAPIClient where
  setted_up : Bool
  token : Option String
  session : Option ClientSession
deriving DecidableEq

/-- `BASE_URL`. -/
def BASE_URL : String := "https://api.github.com"

/-- `GitHubAPIClient.__init__`: sets `self._setted_up = False`. -/
def GitHubAPIClient.new : GitHubAPIClient :=
  { setted_up := false, token := none, session := none }

/-- `GitHubAPIClient.setup` (`src/prismo/exts/api/github.py:114-124`):
assigns `self._token` and `self._session` and returns.  It never writes
`self._setted_up`. -/
def GitHubAPIClient.setup (c : GitHubAPIClient) (token : String) : GitHubAPIClient :=
  { c with
      token := some token
      session := some
        { base := BASE_URL
          headers :=
            [("Accept", "application/vnd.github+json"),
             ("Authorization", "Bearer " ++ token),
             ("X-GitHub-Api-Version", "2022-11-28")] } }

/-- The `is_ready` property (`src/prismo/exts/api/github.py:126-130`):
`if not self._setted_up: return False` then `return True`. -/
def GitHubAPIClient.is_ready (c : GitHubAPIClient) : Bool :=
  if !c.setted_up then false else true

/-- `MAXIMUM_ISSUES` (`src/prismo/exts/api/github.py:25`). -/
def MAXIMUM_ISSUES : Nat := 5

/-- `[a-zA-Z0-9]` — the first character of the `org` group. -/
def isAlnumAscii (c : Char) : Bool :=
  ('a' ≤ c && c ≤ 'z') || ('A' ≤ c && c ≤ 'Z') || ('0' ≤ c && c ≤ '9')

/-- `[a-zA-Z0-9\-]` — the remaining characters of the `org` group. -/
def isOrgChar (c : Char) : Bool := isAlnumAscii c || c = '-'

/-- `[\w\-\.]` — the `repo` group characters (`\w` with ASCII letters,
digits and underscore; the messages in the claims are ASCII). -/
def isRepoChar (c : Char) : Bool :=
  isAlnumAscii c || c = '_' || c = '-' || c = '.'

/-- A match of `AUTOMATIC_REGEX`
(`src/prismo/exts/api/github.py:28-30`): the optional `org` group, the
`repo` group, and the `number` group as an integer. -/
structure RefMatch where
  org : Option String
  repo : String
  number : Nat
deriving DecidableEq

/-- Value of a digit string. -/
def natOfDigits (l : List Char) : Nat :=
  l.foldl (fun a c => 10 * a + digitVal c) 0

/-- Match `(?P<repo>[\w\-\.]{1,100})#(?P<number>[0-9]+)` at the head of
`l`.  `#` is not a repo character and a digit run ends the number group,
so the greedy quantifiers have a unique viable reading. -/
def matchRepoNum (l : List Char) : Option (String × Nat × List Char) :=
  let repo := l.takeWhile isRepoChar
  let rest := l.dropWhile isRepoChar
  if repo.length = 0 || repo.length > 100 then none
  else
    match rest with
    | '#' :: r2 =>
      let ds := r2.takeWhile Char.isDigit
      if ds.length = 0 then none
      else some (String.mk repo, natOfDigits ds, r2.dropWhile Char.isDigit)
    | _ => none

/-- Attempt `AUTOMATIC_REGEX` at the head of `l`: the greedy optional
`((?P<org>[a-zA-Z0-9][a-zA-Z0-9\-]{1,39})\/)?` branch first (its end is
forced because `/` is not an org character), falling back to the
org-less branch. -/
def matchAt (l : List Char) : Option (RefMatch × List Char) :=
  (match l with
   | c0 :: r1 =>
     if isAlnumAscii c0 then
       let run := r1.takeWhile isOrgChar
       let rest := r1.dropWhile isOrgChar
       if 1 ≤ run.length && run.length ≤ 39 then
         match rest with
         | '/' :: r2 =>
           (matchRepoNum r2).map
             (fun p => ({ org := some (String.mk (c0 :: run)), repo := p.1, number := p.2.1 }, p.2.2))
         | _ => none
       else none
     else none
   | [] => none)
  <|>
  (matchRepoNum l).map (fun p => ({ org := none, repo := p.1, number := p.2.1 }, p.2.2))

/-- One `re.finditer` scan step per unit of fuel: try a match at the
current position, resume after it on success, advance one character on
failure.  Every match consumes at least three characters, so fuel equal
to the message length never runs out. -/
def findRefsAux : Nat → List Char → List RefMatch
  | 0, _ => []
  | Nat.succ n, l =>
    match l with
    | [] => []
    | c :: rest =>
      match matchAt (c :: rest) with
      | some (m, rr) => m :: findRefsAux n rr
      | none => findRefsAux n rest

/-- All non-overlapping matches of `AUTOMATIC_REGEX` in a message, in
left-to-right order, as `re.finditer` yields them. -/
def findRefs (s : String) : List RefMatch := findRefsAux s.data.length s.data

/-- Zero-padded two-digit rendering of a field value below 100. -/
def padDigits2 (v : Nat) : List Char := [Nat.digitChar (v / 10), Nat.digitChar (v % 10)]

/-- Zero-padded four-digit rendering of a year below 10000. -/
def pad4 (v : Nat) : List Char :=
  [Nat.digitChar (v / 1000), Nat.digitChar (v / 100 % 10),
   Nat.digitChar (v / 10 % 10), Nat.digitChar (v % 10)]

/-- One numeric field as it may appear in input accepted by the
`strptime` pattern: two digits (always possible), or a single digit when
the value is below ten and `pad` is `false`. -/
def render2 (pad : Bool) (v : Nat) : List Char :=
  if pad || 10 ≤ v then padDigits2 v else [Nat.digitChar v]

/-- Which of the five flexible-width fields are written with two digits,
and whether the `T` and `Z` literals are written in lowercase (accepted
because CPython compiles the format regex with `re.IGNORECASE`). -/
structure PadChoice where
  pm : Bool
  pd : Bool
  ph : Bool
  pmin : Bool
  ps : Bool
  lt : Bool
  lz : Bool

/-- The character list `YYYY-M?M-D?DTH?H:M?M:S?SZ` rendering a timestamp,
with the padding of each non-year field and the case of the letter
literals chosen by `p`. -/
def fmtFlexList (f : PyDateTime) (p : PadChoice) : List Char :=
  pad4 f.year ++ '-' :: (render2 p.pm f.month ++ '-' :: (render2 p.pd f.day ++
    (if p.lt then 't' else 'T') :: (render2 p.ph f.hour ++ ':' :: (render2 p.pmin f.minute ++
      ':' :: (render2 p.ps f.second ++ [if p.lz then 'z' else 'Z'])))))

/-- Modelled from the spec: the `YYYY-MM-DDTHH:MM:SSZ` formatter used to
state the round-trip property.  No formatting code exists in the
repository; the spec's "formatted output (same format)" is the
zero-padded rendering of every field. -/
def fmtExact (f : PyDateTime) : String :=
  String.mk (fmtFlexList f ⟨true, true, true, true, true, false, false⟩)

/-- The timestamps the `datetime` constructor accepts for this format:
four-digit year from `MINYEAR`, a real calendar day, and a second below
60. -/
def ValidDT (f : PyDateTime) : Prop :=
  1 ≤ f.year ∧ f.year ≤ 9999 ∧ 1 ≤ f.month ∧ f.month ≤ 12 ∧
    1 ≤ f.day ∧ f.day ≤ daysInMonth f.year f.month ∧
    f.hour ≤ 23 ∧ f.minute ≤ 59 ∧ f.second ≤ 59

instance (f : PyDateTime) : Decidable (ValidDT f) := by
  unfold ValidDT
  infer_instance

/-- A string in the exact `YYYY-MM-DDTHH:MM:SSZ` format denoting a valid
timestamp: the zero-padded rendering of some valid field vector. -/
def ExactFormat (s : String) : Prop := ∃ f, ValidDT f ∧ s = fmtExact f

/-- A string accepted by the flexible `strptime` pattern: the rendering
of some valid field vector with each non-year field one or two digits
wide. -/
def FlexFormat (s : String) : Prop := ∃ f p, ValidDT f ∧ s.data = fmtFlexList f p

/-- The `owner` sub-object of the sample repository response. -/
def ownerJson : List (String × JVal) :=
  [("login", .str "DisnakeDev"), ("type", .str "Organization"),
   ("avatar_url", .str "https://avatars.example/1"),
   ("html_url", .str "https://github.com/DisnakeDev")]

/-- A well-formed repository response body. -/
def repoJson : List (String × JVal) :=
  [("full_name", .str "DisnakeDev/disnake"),
   ("description", .str "An API wrapper"),
   ("fork", .bool false),
   ("owner", .obj ownerJson),
   ("html_url", .str "https://github.com/DisnakeDev/disnake"),
   ("forks_count", .num 230),
   ("stargazers_count", .num 800),
   ("default_branch", .str "master"),
   ("open_issues", .num 95),
   ("topics", .arr [.str "discord", .str "python"]),
   ("archived", .bool false),
   ("pushed_at", .str "2023-05-06T07:08:09Z"),
   ("created_at", .str "2021-01-02T03:04:05Z"),
   ("updated_at", .null)]

/-- The repository response with the `created_at` key omitted. -/
def repoJsonNoCreated : List (String × JVal) :=
  [("full_name", .str "DisnakeDev/disnake"),
   ("description", .str "An API wrapper"),
   ("fork", .bool false),
   ("owner", .obj ownerJson),
   ("html_url", .str "https://github.com/DisnakeDev/disnake"),
   ("forks_count", .num 230),
   ("stargazers_count", .num 800),
   ("default_branch", .str "master"),
   ("open_issues", .num 95),
   ("topics", .arr [.str "discord", .str "python"]),
   ("archived", .bool false),
   ("pushed_at", .str "2023-05-06T07:08:09Z"),
   ("updated_at", .null)]

/-- The `user` sub-object of the sample issues-endpoint responses. -/
def userJson : List (String × JVal) :=
  [("login", .str "Snipy7374"), ("type", .str "User"),
   ("avatar_url", .str "https://avatars.example/2"),
   ("html_url", .str "https://github.com/Snipy7374")]

/-- An issues-endpoint response carrying a `pull_request` sub-object. -/
def prJson : List (String × JVal) :=
  [("url", .str "https://api.github.com/repos/DisnakeDev/disnake/issues/982"),
   ("comments_url", .str "https://api.github.com/repos/DisnakeDev/disnake/issues/982/comments"),
   ("number", .num 982),
   ("state", .str "open"),
   ("state_reason", .null),
   ("title", .str "Add feature"),
   ("body", .str "Please"),
   ("comments", .num 3),
   ("closed_at", .null),
   ("created_at", .str "2022-05-06T07:08:09Z"),
   ("updated_at", .str "2022-05-07T00:00:00Z"),
   ("user", .obj userJson),
   ("pull_request",
    .obj [("url", .str "https://api.github.com/repos/DisnakeDev/disnake/pulls/982")])]

/-- An issues-endpoint response without a `pull_request` key. -/
def issueJson : List (String × JVal) :=
  [("url", .str "https://api.github.com/repos/DisnakeDev/disnake/issues/983"),
   ("comments_url", .str "https://api.github.com/repos/DisnakeDev/disnake/issues/983/comments"),
   ("number", .num 983),
   ("state", .str "closed"),
   ("state_reason", .str "completed"),
   ("title", .str "A bug"),
   ("body", .null),
   ("comments", .num 1),
   ("closed_at", .str "2022-06-01T10:00:00Z"),
   ("created_at", .str "2022-05-06T07:08:09Z"),
   ("updated_at", .null),
   ("user", .obj userJson)]

/-! ### Digit characters -/

theorem isDigit_toNat {c : Char} (h : c.isDigit = true) :
    48 ≤ c.toNat ∧ c.toNat ≤ 57 := by
  simp [Char.isDigit] at h
  exact h

theorem digitVal_lt_ten {c : Char} (h : c.isDigit = true) : digitVal c < 10 := by
  have := isDigit_toNat h
  unfold digitVal
  omega

theorem isDigit_digitChar {v : Nat} (h : v < 10) : (Nat.digitChar v).isDigit = true := by
  interval_cases v <;> decide

theorem digitVal_digitChar {v : Nat} (h : v < 10) : digitVal (Nat.digitChar v) = v := by
  interval_cases v <;> decide

theorem digitChar_digitVal {c : Char} (h : c.isDigit = true) :
    Nat.digitChar (digitVal c) = c := by
  obtain ⟨h1, h2⟩ := isDigit_toNat h
  have hv : c.toNat = digitVal c + 48 := by unfold digitVal; omega
  have hlt : digitVal c < 10 := digitVal_lt_ten h
  rw [← Char.ofNat_toNat c, hv]
  interval_cases h : (digitVal c) <;> decide

/-! ### The numeric readers on rendered fields -/

theorem readYear4_pad4 (y : Nat) (hy : y ≤ 9999) (rest : List Char) :
    readYear4 (pad4 y ++ rest) = some (y, rest) := by
  have h1 : y / 1000 < 10 := by omega
  have h2 : y / 100 % 10 < 10 := by omega
  have h3 : y / 10 % 10 < 10 := by omega
  have h4 : y % 10 < 10 := by omega
  simp [pad4, readYear4, isDigit_digitChar, h1, h2, h3, h4,
    digitVal_digitChar]
  omega

theorem readNum2_render2 (p : Bool) (v : Nat) (hv : v ≤ 99) (c : Char)
    (hc : c.isDigit = false) (rest : List Char) :
    readNum2 (render2 p v ++ c :: rest) =
      some ((if p || 10 ≤ v then 2 else 1), v, c :: rest) := by
  by_cases hp : (p || 10 ≤ v) = true
  · have hd1 : v / 10 < 10 := by omega
    have hd2 : v % 10 < 10 := by omega
    simp [render2, hp, padDigits2, readNum2, isDigit_digitChar, hd1, hd2,
      digitVal_digitChar]
    omega
  · have hv10 : v < 10 := by
      rcases Bool.or_eq_false_iff.mp (Bool.not_eq_true _ ▸ hp) with ⟨-, h⟩
      simpa using h
    simp only [Bool.not_eq_true] at hp
    simp [render2, hp, readNum2, isDigit_digitChar, hv10, hc,
      digitVal_digitChar]

theorem readLit_cons (up lo : Char) (rest : List Char) :
    readLit up lo (up :: rest) = some rest := by
  simp [readLit]

theorem readLit_cons_lo (up lo : Char) (rest : List Char) :
    readLit up lo (lo :: rest) = some rest := by
  simp [readLit]

/-! ### Inversion of the readers -/

theorem readYear4_some {l : List Char} {y : Nat} {r : List Char}
    (h : readYear4 l = some (y, r)) : y ≤ 9999 ∧ l = pad4 y ++ r := by
  match l with
  | [] => simp [readYear4] at h
  | [a] => simp [readYear4] at h
  | [a, b] => simp [readYear4] at h
  | [a, b, c] => simp [readYear4] at h
  | a :: b :: c :: d :: rest =>
    rw [readYear4] at h
    split at h
    case isTrue hd =>
      simp only [Bool.and_eq_true] at hd
      obtain ⟨⟨⟨ha, hb⟩, hc⟩, hdd⟩ := hd
      have hva := digitVal_lt_ten ha
      have hvb := digitVal_lt_ten hb
      have hvc := digitVal_lt_ten hc
      have hvd := digitVal_lt_ten hdd
      simp only [Option.some.injEq, Prod.mk.injEq] at h
      obtain ⟨hy, hr⟩ := h
      subst hy hr
      constructor
      · omega
      · have e1 : (1000 * digitVal a + 100 * digitVal b + 10 * digitVal c + digitVal d) / 1000 =
            digitVal a := by omega
        have e2 : (1000 * digitVal a + 100 * digitVal b + 10 * digitVal c + digitVal d) / 100 % 10 =
            digitVal b := by omega
        have e3 : (1000 * digitVal a + 100 * digitVal b + 10 * digitVal c + digitVal d) / 10 % 10 =
            digitVal c := by omega
        have e4 : (1000 * digitVal a + 100 * digitVal b + 10 * digitVal c + digitVal d) % 10 =
            digitVal d := by omega
        simp [pad4, e1, e2, e3, e4, digitChar_digitVal, ha, hb, hc, hdd]
    case isFalse => simp at h

theorem readNum2_some {l : List Char} {w v : Nat} {r : List Char}
    (h : readNum2 l = some (w, v, r)) :
    (w = 2 ∧ v ≤ 99 ∧ l = padDigits2 v ++ r) ∨
      (w = 1 ∧ v ≤ 9 ∧ l = Nat.digitChar v :: r) := by
  match l with
  | [] => simp [readNum2] at h
  | [c1] =>
    rw [readNum2] at h
    split at h
    case isTrue h1 =>
      simp only [Option.some.injEq, Prod.mk.injEq] at h
      obtain ⟨hw, hv, hr⟩ := h
      subst hw hv hr
      have hvlt := digitVal_lt_ten h1
      right
      exact ⟨rfl, by omega, by rw [digitChar_digitVal h1]⟩
    case isFalse => simp at h
  | c1 :: c2 :: rest =>
    rw [readNum2] at h
    split at h
    case isTrue h1 =>
      split at h
      case isTrue h2 =>
        simp only [Option.some.injEq, Prod.mk.injEq] at h
        obtain ⟨hw, hv, hr⟩ := h
        subst hw hv hr
        have hv1 := digitVal_lt_ten h1
        have hv2 := digitVal_lt_ten h2
        left
        refine ⟨rfl, by omega, ?_⟩
        have e1 : (10 * digitVal c1 + digitVal c2) / 10 = digitVal c1 := by omega
        have e2 : (10 * digitVal c1 + digitVal c2) % 10 = digitVal c2 := by omega
        simp [padDigits2, e1, e2, digitChar_digitVal, h1, h2]
      case isFalse h2 =>
        simp only [Option.some.injEq, Prod.mk.injEq] at h
        obtain ⟨hw, hv, hr⟩ := h
        subst hw hv hr
        have hv1 := digitVal_lt_ten h1
        right
        exact ⟨rfl, by omega, by rw [digitChar_digitVal h1]⟩
    case isFalse => simp at h

theorem readLit_some {up lo : Char} {l r : List Char}
    (h : readLit up lo l = some r) : ∃ x, (x = up ∨ x = lo) ∧ l = x :: r := by
  match l with
  | [] => simp [readLit] at h
  | x :: rest =>
    rw [readLit] at h
    split at h
    case isTrue hx =>
      refine ⟨x, ?_, by simp [Option.some.inj h]⟩
      rcases Bool.or_eq_true_iff.mp hx with h' | h'
      · exact Or.inl (by simpa using h')
      · exact Or.inr (by simpa using h')
    case isFalse => simp at h

/-! ### `strptime` accepts every flexible rendering of a valid timestamp -/

theorem readLit_if (up lo : Char) (b : Bool) (rest : List Char) :
    readLit up lo ((if b then lo else up) :: rest) = some rest := by
  cases b <;> simp [readLit]

theorem fieldOK_width (b : Bool) (v lo2 hi2 lo1 : Nat) (h2 : lo2 ≤ v) (h2' : v ≤ hi2)
    (h1 : lo1 ≤ v) : fieldOK (if b then 2 else 1) v lo2 hi2 lo1 = true := by
  cases b <;> simp [fieldOK, h2, h2', h1]

theorem strptimeFields_fmtFlex (f : PyDateTime) (p : PadChoice) (hf : ValidDT f) :
    strptimeFields (fmtFlexList f p) =
      some (f.year, f.month, f.day, f.hour, f.minute, f.second) := by
  obtain ⟨h1, h2, h3, h4, h5, h6, h7, h8, h9⟩ := hf
  have hday : f.day ≤ 31 := by
    have : daysInMonth f.year f.month ≤ 31 := by
      unfold daysInMonth
      split
      · split <;> omega
      · split <;> omega
    omega
  simp only [strptimeFields, fmtFlexList,
    readYear4_pad4 f.year (by omega),
    readNum2_render2 p.pm f.month (by omega) '-' (by decide),
    readNum2_render2 p.pd f.day (by omega) (if p.lt then 't' else 'T')
      (by cases p.lt <;> decide),
    readNum2_render2 p.ph f.hour (by omega) ':' (by decide),
    readNum2_render2 p.pmin f.minute (by omega) ':' (by decide),
    readNum2_render2 p.ps f.second (by omega) (if p.lz then 'z' else 'Z')
      (by cases p.lz <;> decide),
    readLit_cons, readLit_if,
    fieldOK_width _ f.month 1 12 1 h3 h4 h3,
    fieldOK_width _ f.day 1 31 1 h5 hday h5,
    fieldOK_width _ f.hour 0 23 0 (Nat.zero_le _) h7 (Nat.zero_le _),
    fieldOK_width _ f.minute 0 59 0 (Nat.zero_le _) h8 (Nat.zero_le _),
    fieldOK_width _ f.second 0 61 0 (Nat.zero_le _) (by omega) (Nat.zero_le _),
    if_true]

/-! ### Everything `strptime` accepts is a flexible rendering -/

theorem render2_true (v : Nat) : render2 true v = padDigits2 v := by
  simp [render2]

theorem render2_false {v : Nat} (hv : v ≤ 9) : render2 false v = [Nat.digitChar v] := by
  simp [render2, show ¬ 10 ≤ v by omega]

theorem readNum2_inv {l : List Char} {w v : Nat} {r : List Char} {lo hi : Nat}
    (h : readNum2 l = some (w, v, r)) (hok : fieldOK w v lo hi lo = true)
    (hhi : 9 ≤ hi) : lo ≤ v ∧ v ≤ hi ∧ ∃ b, l = render2 b v ++ r := by
  rcases readNum2_some h with ⟨hw, hv, hl⟩ | ⟨hw, hv, hl⟩
  · subst hw
    simp [fieldOK] at hok
    exact ⟨hok.1, hok.2, true, by rw [hl, render2_true]⟩
  · subst hw
    simp [fieldOK] at hok
    exact ⟨hok, by omega, false, by rw [hl, render2_false hv]; rfl⟩

theorem readLit_same {c : Char} {l r : List Char} (h : readLit c c l = some r) :
    l = c :: r := by
  rcases readLit_some h with ⟨x, hx | hx, hl⟩ <;> subst hx <;> exact hl

theorem readLit_ci {up lo : Char} {l r : List Char} (h : readLit up lo l = some r) :
    ∃ b : Bool, l = (if b then lo else up) :: r := by
  rcases readLit_some h with ⟨x, hx | hx, hl⟩
  · exact ⟨false, by subst hx; simpa using hl⟩
  · exact ⟨true, by subst hx; simpa using hl⟩

theorem strptimeFields_some {l : List Char} {y mo d h mi se : Nat}
    (hp : strptimeFields l = some (y, mo, d, h, mi, se)) :
    (y ≤ 9999 ∧ 1 ≤ mo ∧ mo ≤ 12 ∧ 1 ≤ d ∧ d ≤ 31 ∧ h ≤ 23 ∧ mi ≤ 59 ∧ se ≤ 61) ∧
      ∃ p : PadChoice, l = fmtFlexList ⟨y, mo, d, h, mi, se⟩ p := by
  rw [strptimeFields] at hp
  split at hp <;> try exact Option.noConfusion hp
  next y0 r1 hY =>
  split at hp <;> try exact Option.noConfusion hp
  next r2 hL1 =>
  split at hp <;> try exact Option.noConfusion hp
  next wmo mo0 r3 hM =>
  split at hp <;> try exact Option.noConfusion hp
  next hokM =>
  split at hp <;> try exact Option.noConfusion hp
  next r4 hL2 =>
  split at hp <;> try exact Option.noConfusion hp
  next wd d0 r5 hD =>
  split at hp <;> try exact Option.noConfusion hp
  next hokD =>
  split at hp <;> try exact Option.noConfusion hp
  next r6 hL3 =>
  split at hp <;> try exact Option.noConfusion hp
  next wh h0 r7 hH =>
  split at hp <;> try exact Option.noConfusion hp
  next hokH =>
  split at hp <;> try exact Option.noConfusion hp
  next r8 hL4 =>
  split at hp <;> try exact Option.noConfusion hp
  next wmi mi0 r9 hMi =>
  split at hp <;> try exact Option.noConfusion hp
  next hokMi =>
  split at hp <;> try exact Option.noConfusion hp
  next r10 hL5 =>
  split at hp <;> try exact Option.noConfusion hp
  next ws se0 r11 hS =>
  split at hp <;> try exact Option.noConfusion hp
  next hokS =>
  split at hp <;> try exact Option.noConfusion hp
  next hL6 =>
  simp only [Option.some.injEq, Prod.mk.injEq] at hp
  obtain ⟨ey, em, ed, eh, emi, es⟩ := hp
  subst ey em ed eh emi es
  obtain ⟨hyB, hlY⟩ := readYear4_some hY
  have hr1 := readLit_same hL1
  obtain ⟨hloM, hhiM, bm, hlM⟩ := readNum2_inv hM hokM (by omega)
  have hr3 := readLit_same hL2
  obtain ⟨hloD, hhiD, bd, hlD⟩ := readNum2_inv hD hokD (by omega)
  obtain ⟨bt, hr5⟩ := readLit_ci hL3
  obtain ⟨hloH, hhiH, bh, hlH⟩ := readNum2_inv hH hokH (by omega)
  have hr7 := readLit_same hL4
  obtain ⟨hloMi, hhiMi, bmi, hlMi⟩ := readNum2_inv hMi hokMi (by omega)
  have hr9 := readLit_same hL5
  obtain ⟨hloS, hhiS, bs, hlS⟩ := readNum2_inv hS hokS (by omega)
  obtain ⟨bz, hr11⟩ := readLit_ci hL6
  refine ⟨⟨hyB, hloM, hhiM, hloD, hhiD, hhiH, hhiMi, hhiS⟩,
    ⟨bm, bd, bh, bmi, bs, bt, bz⟩, ?_⟩
  rw [fmtFlexList]
  rw [hlY, hr1, hlM, hr3, hlD, hr5, hlH, hr7, hlMi, hr9, hlS, hr11]

theorem strptimeZ_some {s : String} {f : PyDateTime} (h : strptimeZ s = some f) :
    ValidDT f ∧ ∃ p, s.data = fmtFlexList f p := by
  rw [strptimeZ] at h
  split at h
  case h_1 => exact absurd h (by simp)
  case h_2 y mo d hh mi se hFields =>
  split at h
  case isFalse => exact absurd h (by simp)
  case isTrue hval =>
  simp only [Option.some.injEq] at h
  subst h
  obtain ⟨⟨hy, hloM, hhiM, hloD, hhiD, hhiH, hhiMi, hhiS⟩, p, hl⟩ :=
    strptimeFields_some hFields
  simp only [Bool.and_eq_true, decide_eq_true_eq] at hval
  exact ⟨⟨hval.1.1, hy, hloM, hhiM, hloD, hval.1.2, hhiH, hhiMi, hval.2⟩, p, hl⟩

theorem strptimeZ_fmtFlex (f : PyDateTime) (p : PadChoice) (hf : ValidDT f) :
    strptimeZ (String.mk (fmtFlexList f p)) = some f := by
  obtain ⟨h1, h2, h3, h4, h5, h6, h7, h8, h9⟩ := hf
  show strptimeZ ⟨fmtFlexList f p⟩ = some f
  rw [strptimeZ]
  show (match strptimeFields (fmtFlexList f p) with
    | none => none
    | some (y, mo, d, h, mi, se) =>
      if 1 ≤ y && d ≤ daysInMonth y mo && se ≤ 59 then
        some ⟨y, mo, d, h, mi, se⟩
      else none) = some f
  rw [strptimeFields_fmtFlex f p ⟨h1, h2, h3, h4, h5, h6, h7, h8, h9⟩]
  simp [h1, h6, h9]

/-! ### The converter on present, absent and falsy values -/

/-- Whether a `data.get(key)` result is truthy in Python: the key is
present and its value is truthy. -/
def truthyOpt : Option JVal → Bool
  | none => false
  | some v => pyTruthy v

theorem convert_to_date_some_eq (v : JVal) :
    Dates.convert_to_date (some v) =
      if pyTruthy v then
        (match v with
         | .str s =>
           (match strptimeZ s with
            | some d => .ok (some d)
            | none => .error .valueError)
         | _ => .error .typeError)
      else .ok none := by
  cases v <;> rfl

theorem convert_to_date_ok_none_iff {x : Option JVal} {o : Option PyDateTime}
    (h : Dates.convert_to_date x = .ok o) : o = none ↔ truthyOpt x = false := by
  cases x with
  | none =>
    simp [Dates.convert_to_date] at h
    simp [truthyOpt, ← h]
  | some v =>
    rw [convert_to_date_some_eq] at h
    split at h
    case isTrue ht =>
      split at h <;> try exact Except.noConfusion h
      next s =>
      split at h <;> try exact Except.noConfusion h
      next d hd =>
      simp only [Except.ok.injEq] at h
      subst h
      simp [truthyOpt, ht]
    case isFalse ht =>
      simp only [Except.ok.injEq] at h
      subst h
      simp only [truthyOpt, Bool.not_eq_true] at ht ⊢
      simp [ht]

theorem convert_to_date_falsy {x : Option JVal} (h : truthyOpt x = false) :
    Dates.convert_to_date x = .ok none := by
  cases x with
  | none => rfl
  | some v =>
    simp only [truthyOpt] at h
    rw [convert_to_date_some_eq, if_neg]
    simp [h]

/-! ### What the fetch operations return on a decoded object body -/

theorem jget_obj (fs : List (String × JVal)) (k : String) :
    jget (.obj fs) k = jlookup fs k := rfl

/-- `fetch_repository` on any object body whose `owner` value is an
object and whose three timestamp values convert without error: every
field of the result is the corresponding top-level lookup. -/
theorem fetch_repository_ok (st : Nat) (fs ofs : List (String × JVal))
    (p c u : Option PyDateTime)
    (how : jlookup fs "owner" = some (.obj ofs))
    (hp : Dates.convert_to_date (jlookup fs "pushed_at") = .ok p)
    (hc : Dates.convert_to_date (jlookup fs "created_at") = .ok c)
    (hu : Dates.convert_to_date (jlookup fs "updated_at") = .ok u) :
    fetch_repository st (.obj fs) = .ok
      { full_name := jlookup fs "full_name"
        description := jlookup fs "description"
        fork := jlookup fs "fork"
        owner :=
          { user_type := mapUserType (jlookup ofs "type")
            name := jlookup ofs "login"
            avatar_url := jlookup ofs "avatar_url"
            profile_url := jlookup ofs "html_url" }
        url := jlookup fs "html_url"
        stats :=
          { forks_count := jlookup fs "forks_count"
            stars := jlookup fs "stargazers_count"
            default_branch := jlookup fs "default_branch"
            open_issues_and_prs := jlookup fs "open_issues"
            topics := jlookup fs "topics"
            archived := jlookup fs "archived"
            pushed_at := p
            created_at := c
            updated_at := u } } := by
  rw [fetch_repository]
  simp [pyIndex, how, pyGetAttr, jget_obj, hp, hc, hu, Bind.bind, Except.bind,
    pure, Except.pure]

/-- `fetch_issue_or_pr` on an object body with a `pull_request` key whose
value is an object: the record is a pull request and its `url` comes from
the `pull_request` sub-object; every other field is the top-level lookup. -/
theorem fetch_issue_or_pr_ok_pr (st : Nat) (fs ufs pfs : List (String × JVal))
    (cl c u : Option PyDateTime)
    (huser : jlookup fs "user" = some (.obj ufs))
    (hpr : jlookup fs "pull_request" = some (.obj pfs))
    (hcl : Dates.convert_to_date (jlookup fs "closed_at") = .ok cl)
    (hc : Dates.convert_to_date (jlookup fs "created_at") = .ok c)
    (hu : Dates.convert_to_date (jlookup fs "updated_at") = .ok u) :
    fetch_issue_or_pr st (.obj fs) = .ok
      { info_type := .pull_request
        url := jlookup pfs "url"
        comments_url := jlookup fs "comments_url"
        number := jlookup fs "number"
        state := jlookup fs "state"
        state_reason := jlookup fs "state_reason"
        title := jlookup fs "title"
        description := jlookup fs "body"
        number_of_comments := jlookup fs "comments"
        closed_at := cl
        created_at := c
        updated_at := u
        author :=
          { user_type := mapUserType (jlookup ufs "type")
            name := jlookup ufs "login"
            avatar_url := jlookup ufs "avatar_url"
            profile_url := jlookup ufs "html_url" } } := by
  rw [fetch_issue_or_pr]
  simp [pyIndex, huser, pyHasKey, hpr, jget_obj, pyGetAttr, hcl, hc, hu,
    Bind.bind, Except.bind, pure, Except.pure]

/-- `fetch_issue_or_pr` on an object body without a `pull_request` key:
the record is an issue and its `url` is the top-level `url`. -/
theorem fetch_issue_or_pr_ok_issue (st : Nat) (fs ufs : List (String × JVal))
    (cl c u : Option PyDateTime)
    (huser : jlookup fs "user" = some (.obj ufs))
    (hpr : jlookup fs "pull_request" = none)
    (hcl : Dates.convert_to_date (jlookup fs "closed_at") = .ok cl)
    (hc : Dates.convert_to_date (jlookup fs "created_at") = .ok c)
    (hu : Dates.convert_to_date (jlookup fs "updated_at") = .ok u) :
    fetch_issue_or_pr st (.obj fs) = .ok
      { info_type := .issue
        url := jlookup fs "url"
        comments_url := jlookup fs "comments_url"
        number := jlookup fs "number"
        state := jlookup fs "state"
        state_reason := jlookup fs "state_reason"
        title := jlookup fs "title"
        description := jlookup fs "body"
        number_of_comments := jlookup fs "comments"
        closed_at := cl
        created_at := c
        updated_at := u
        author :=
          { user_type := mapUserType (jlookup ufs "type")
            name := jlookup ufs "login"
            avatar_url := jlookup ufs "avatar_url"
            profile_url := jlookup ufs "html_url" } } := by
  rw [fetch_issue_or_pr]
  simp [pyIndex, huser, pyHasKey, hpr, jget_obj, pyGetAttr, hcl, hc, hu,
    Bind.bind, Except.bind, pure, Except.pure]

/-- A body without an `owner` key makes `fetch_repository` raise
`KeyError` at `data["owner"]`, before anything else happens. -/
theorem fetch_repository_missing_owner (st : Nat) (fs : List (String × JVal))
    (h : jlookup fs "owner" = none) :
    fetch_repository st (.obj fs) = .error (.keyError "owner") := by
  rw [fetch_repository]
  simp [pyIndex, h, Bind.bind, Except.bind]

/-- A body without a `user` key makes `fetch_issue_or_pr` raise
`KeyError` at `data["user"]`, before anything else happens. -/
theorem fetch_issue_or_pr_missing_user (st : Nat) (fs : List (String × JVal))
    (h : jlookup fs "user" = none) :
    fetch_issue_or_pr st (.obj fs) = .error (.keyError "user") := by
  rw [fetch_issue_or_pr]
  simp [pyIndex, h, Bind.bind, Except.bind]

/-! ### Small helpers shared by the claim theorems -/

theorem render2_length_pos (b : Bool) (v : Nat) : 1 ≤ (render2 b v).length := by
  rw [render2]
  split <;> simp [padDigits2]

theorem fmtFlexList_length_ge (f : PyDateTime) (p : PadChoice) :
    15 ≤ (fmtFlexList f p).length := by
  have h1 := render2_length_pos p.pm f.month
  have h2 := render2_length_pos p.pd f.day
  have h3 := render2_length_pos p.ph f.hour
  have h4 := render2_length_pos p.pmin f.minute
  have h5 := render2_length_pos p.ps f.second
  simp [fmtFlexList, pad4, List.length_append]
  omega

theorem fmtFlexList_not_empty (f : PyDateTime) (p : PadChoice) :
    (fmtFlexList f p).isEmpty = false := by
  have := fmtFlexList_length_ge f p
  cases h : fmtFlexList f p with
  | nil => rw [h] at this; simp at this
  | cons a l => simp

/-- The converter accepts every flexible rendering of a valid timestamp
and returns exactly its fields. -/
theorem convert_to_date_fmtFlex (f : PyDateTime) (p : PadChoice) (hf : ValidDT f) :
    Dates.convert_to_date (some (.str (String.mk (fmtFlexList f p)))) = .ok (some f) := by
  rw [convert_to_date_some_eq]
  have ht : pyTruthy (.str (String.mk (fmtFlexList f p))) = true := by
    simp [pyTruthy, fmtFlexList_not_empty f p]
  rw [if_pos ht]
  show (match strptimeZ (String.mk (fmtFlexList f p)) with
    | some d => Except.ok (some d)
    | none => Except.error PyErr.valueError) = .ok (some f)
  rw [strptimeZ_fmtFlex f p hf]

/-! ### The claims -/

/-- Claim C1: for every 2xx JSON response from the issues endpoint,
`fetch_issue_or_pr` returns a record whose kind is `pull_request` with
`url` taken from the `pull_request` sub-object's `url` when the response
contains a `pull_request` key, and whose kind is `issue` with `url` taken
from the top-level `url` when it does not; every other field is read from
the top-level response regardless of kind. -/
theorem claim_c1 (st : Nat) (fs ufs : List (String × JVal)) (cl c u : Option PyDateTime)
    (h2xx : 200 ≤ st ∧ st < 300)
    (huser : jlookup fs "user" = some (.obj ufs))
    (hcl : Dates.convert_to_date (jlookup fs "closed_at") = .ok cl)
    (hc : Dates.convert_to_date (jlookup fs "created_at") = .ok c)
    (hu : Dates.convert_to_date (jlookup fs "updated_at") = .ok u) :
    (∀ pfs, jlookup fs "pull_request" = some (.obj pfs) →
      fetch_issue_or_pr st (.obj fs) = .ok
        { info_type := .pull_request
          url := jlookup pfs "url"
          comments_url := jlookup fs "comments_url"
          number := jlookup fs "number"
          state := jlookup fs "state"
          state_reason := jlookup fs "state_reason"
          title := jlookup fs "title"
          description := jlookup fs "body"
          number_of_comments := jlookup fs "comments"
          closed_at := cl
          created_at := c
          updated_at := u
          author :=
            { user_type := mapUserType (jlookup ufs "type")
              name := jlookup ufs "login"
              avatar_url := jlookup ufs "avatar_url"
              profile_url := jlookup ufs "html_url" } }) ∧
    (jlookup fs "pull_request" = none →
      fetch_issue_or_pr st (.obj fs) = .ok
        { info_type := .issue
          url := jlookup fs "url"
          comments_url := jlookup fs "comments_url"
          number := jlookup fs "number"
          state := jlookup fs "state"
          state_reason := jlookup fs "state_reason"
          title := jlookup fs "title"
          description := jlookup fs "body"
          number_of_comments := jlookup fs "comments"
          closed_at := cl
          created_at := c
          updated_at := u
          author :=
            { user_type := mapUserType (jlookup ufs "type")
              name := jlookup ufs "login"
              avatar_url := jlookup ufs "avatar_url"
              profile_url := jlookup ufs "html_url" } }) :=
  ⟨fun pfs hpr => fetch_issue_or_pr_ok_pr st fs ufs pfs cl c u huser hpr hcl hc hu,
   fun hpr => fetch_issue_or_pr_ok_issue st fs ufs cl c u huser hpr hcl hc hu⟩

/-- Witness for C1 on the two concrete fixtures: a `pull_request`-bearing
response yields a pull-request record with the nested `url`; a plain
issue response yields an issue record with the top-level `url`. -/
theorem claim_c1_witness :
    (fetch_issue_or_pr 200 (.obj prJson)).map (fun r => (r.info_type, r.url)) =
      .ok (GitHubInfoType.pull_request,
        some (.str "https://api.github.com/repos/DisnakeDev/disnake/pulls/982")) ∧
    (fetch_issue_or_pr 200 (.obj issueJson)).map (fun r => (r.info_type, r.url)) =
      .ok (GitHubInfoType.issue,
        some (.str "https://api.github.com/repos/DisnakeDev/disnake/issues/983")) := by
  have h1 := (claim_c1 200 prJson userJson none (some ⟨2022, 5, 6, 7, 8, 9⟩)
    (some ⟨2022, 5, 7, 0, 0, 0⟩) ⟨by omega, by omega⟩ rfl rfl rfl rfl).1
    [("url", .str "https://api.github.com/repos/DisnakeDev/disnake/pulls/982")] rfl
  have h2 := (claim_c1 200 issueJson userJson (some ⟨2022, 6, 1, 10, 0, 0⟩)
    (some ⟨2022, 5, 6, 7, 8, 9⟩) none ⟨by omega, by omega⟩ rfl rfl rfl rfl).2 rfl
  rw [h1, h2]
  exact ⟨rfl, rfl⟩

/-- Counterexample to claim C2: the fetch operations do not fail on
non-2xx statuses; with a well-formed body they return a record at status
404 and 401 alike, so no status ever produces a `NotFound`,
`Unauthorized` or `RemoteError` failure. -/
theorem claim_c2_counterexample :
    (fetch_repository 404 (.obj repoJson)).map (fun _ => ()) = .ok () ∧
    (fetch_issue_or_pr 401 (.obj prJson)).map (fun _ => ()) = .ok () := by
  constructor <;> rfl

/-- Claim C2 as amended: `fetch_repository` and `fetch_issue_or_pr`
never inspect the HTTP status; their outcome is a function of the decoded
body alone, identical for every status value. -/
theorem claim_c2_amended (st st' : Nat) (data : JVal) :
    fetch_repository st data = fetch_repository st' data ∧
    fetch_issue_or_pr st data = fetch_issue_or_pr st' data :=
  ⟨rfl, rfl⟩

/-- Witness for the amended C2 at concrete statuses and bodies. -/
theorem claim_c2_amended_witness :
    fetch_repository 404 (.obj repoJson) = fetch_repository 200 (.obj repoJson) ∧
    fetch_issue_or_pr 401 (.obj prJson) = fetch_issue_or_pr 200 (.obj prJson) :=
  ⟨(claim_c2_amended 404 200 (.obj repoJson)).1, (claim_c2_amended 401 200 (.obj prJson)).2⟩

/-- Claim C3: on a 2xx response, a missing `owner` (resp. `user`)
sub-object makes the operation fail — the `KeyError` raised at
`data["owner"]`/`data["user"]`, the failure the spec names
`MalformedResponse` — while the absence of any other expected key does
not fail: the operation still returns a record and the corresponding
field is simply the (absent, hence `none`) lookup. -/
theorem claim_c3 (st : Nat) (h2xx : 200 ≤ st ∧ st < 300) :
    (∀ fs, jlookup fs "owner" = none →
      fetch_repository st (.obj fs) = .error (.keyError "owner")) ∧
    (∀ fs, jlookup fs "user" = none →
      fetch_issue_or_pr st (.obj fs) = .error (.keyError "user")) ∧
    (∀ fs ofs p c u, jlookup fs "owner" = some (.obj ofs) →
      Dates.convert_to_date (jlookup fs "pushed_at") = .ok p →
      Dates.convert_to_date (jlookup fs "created_at") = .ok c →
      Dates.convert_to_date (jlookup fs "updated_at") = .ok u →
      fetch_repository st (.obj fs) = .ok
        { full_name := jlookup fs "full_name"
          description := jlookup fs "description"
          fork := jlookup fs "fork"
          owner :=
            { user_type := mapUserType (jlookup ofs "type")
              name := jlookup ofs "login"
              avatar_url := jlookup ofs "avatar_url"
              profile_url := jlookup ofs "html_url" }
          url := jlookup fs "html_url"
          stats :=
            { forks_count := jlookup fs "forks_count"
              stars := jlookup fs "stargazers_count"
              default_branch := jlookup fs "default_branch"
              open_issues_and_prs := jlookup fs "open_issues"
              topics := jlookup fs "topics"
              archived := jlookup fs "archived"
              pushed_at := p
              created_at := c
              updated_at := u } }) ∧
    (∀ fs ufs cl c u, jlookup fs "user" = some (.obj ufs) →
      jlookup fs "pull_request" = none →
      Dates.convert_to_date (jlookup fs "closed_at") = .ok cl →
      Dates.convert_to_date (jlookup fs "created_at") = .ok c →
      Dates.convert_to_date (jlookup fs "updated_at") = .ok u →
      fetch_issue_or_pr st (.obj fs) = .ok
        { info_type := .issue
          url := jlookup fs "url"
          comments_url := jlookup fs "comments_url"
          number := jlookup fs "number"
          state := jlookup fs "state"
          state_reason := jlookup fs "state_reason"
          title := jlookup fs "title"
          description := jlookup fs "body"
          number_of_comments := jlookup fs "comments"
          closed_at := cl
          created_at := c
          updated_at := u
          author :=
            { user_type := mapUserType (jlookup ufs "type")
              name := jlookup ufs "login"
              avatar_url := jlookup ufs "avatar_url"
              profile_url := jlookup ufs "html_url" } }) :=
  ⟨fun fs h => fetch_repository_missing_owner st fs h,
   fun fs h => fetch_issue_or_pr_missing_user st fs h,
   fun fs ofs p c u how hp hc hu => fetch_repository_ok st fs ofs p c u how hp hc hu,
   fun fs ufs cl c u huser hpr hcl hc hu =>
     fetch_issue_or_pr_ok_issue st fs ufs cl c u huser hpr hcl hc hu⟩

/-- Witness for C3: a body with no keys at all fails with the `owner`
(resp. `user`) `KeyError`, and the full fixture body with its optional
`state_reason`/`updated_at` values absent or null still yields a record
with those fields `none`. -/
theorem claim_c3_witness :
    fetch_repository 200 (.obj []) = .error (.keyError "owner") ∧
    fetch_issue_or_pr 200 (.obj []) = .error (.keyError "user") ∧
    (fetch_repository 200 (.obj repoJson)).map
      (fun r => (r.full_name, r.stats.updated_at)) =
        .ok (some (.str "DisnakeDev/disnake"), none) := by
  have h1 := (claim_c3 200 ⟨by omega, by omega⟩).1 [] rfl
  have h2 := (claim_c3 200 ⟨by omega, by omega⟩).2.1 [] rfl
  have h3 := (claim_c3 200 ⟨by omega, by omega⟩).2.2.1 repoJson ownerJson
    (some ⟨2023, 5, 6, 7, 8, 9⟩) (some ⟨2021, 1, 2, 3, 4, 5⟩) none rfl rfl rfl rfl
  rw [h1, h2, h3]
  exact ⟨rfl, rfl, rfl⟩

/-- Claim C4 (the code bug): `is_ready` is `False` on a fresh client, but
it is still `False` after `setup(token)` completes, because `setup` never
sets `_setted_up`; the predicate can never distinguish a set-up client. -/
theorem claim_c4 :
    GitHubAPIClient.is_ready GitHubAPIClient.new = false ∧
    GitHubAPIClient.is_ready (GitHubAPIClient.new.setup "my_token") = false :=
  ⟨rfl, rfl⟩

/-- Counterexample to claim C5: a 2xx repository response that simply
omits `created_at` still yields a record, whose `created_at` field is
`none` — `created_at` enjoys no always-present guarantee. -/
theorem claim_c5_counterexample :
    (fetch_repository 200 (.obj repoJsonNoCreated)).map (fun r => r.stats.created_at) =
      .ok none := rfl

/-- Claim C5 as amended: in every record the fetch operations produce,
each timestamp field — `created_at` included — is `none` exactly when the
response omits the key or supplies a falsy value (`null`, the empty
string); `created_at` has no stronger guarantee than the others. -/
theorem claim_c5_amended :
    (∀ st fs ofs p c u,
      jlookup fs "owner" = some (.obj ofs) →
      Dates.convert_to_date (jlookup fs "pushed_at") = .ok p →
      Dates.convert_to_date (jlookup fs "created_at") = .ok c →
      Dates.convert_to_date (jlookup fs "updated_at") = .ok u →
      ∃ r, fetch_repository st (.obj fs) = .ok r ∧
        (r.stats.created_at = none ↔ truthyOpt (jlookup fs "created_at") = false) ∧
        (r.stats.pushed_at = none ↔ truthyOpt (jlookup fs "pushed_at") = false) ∧
        (r.stats.updated_at = none ↔ truthyOpt (jlookup fs "updated_at") = false)) ∧
    (∀ st fs ufs cl c u,
      jlookup fs "user" = some (.obj ufs) →
      (jlookup fs "pull_request" = none ∨
        ∃ pfs, jlookup fs "pull_request" = some (.obj pfs)) →
      Dates.convert_to_date (jlookup fs "closed_at") = .ok cl →
      Dates.convert_to_date (jlookup fs "created_at") = .ok c →
      Dates.convert_to_date (jlookup fs "updated_at") = .ok u →
      ∃ r, fetch_issue_or_pr st (.obj fs) = .ok r ∧
        (r.created_at = none ↔ truthyOpt (jlookup fs "created_at") = false) ∧
        (r.closed_at = none ↔ truthyOpt (jlookup fs "closed_at") = false) ∧
        (r.updated_at = none ↔ truthyOpt (jlookup fs "updated_at") = false)) := by
  constructor
  · intro st fs ofs p c u how hp hc hu
    exact ⟨_, fetch_repository_ok st fs ofs p c u how hp hc hu,
      convert_to_date_ok_none_iff hc, convert_to_date_ok_none_iff hp,
      convert_to_date_ok_none_iff hu⟩
  · intro st fs ufs cl c u huser hpr hcl hc hu
    rcases hpr with hpr | ⟨pfs, hpr⟩
    · exact ⟨_, fetch_issue_or_pr_ok_issue st fs ufs cl c u huser hpr hcl hc hu,
        convert_to_date_ok_none_iff hc, convert_to_date_ok_none_iff hcl,
        convert_to_date_ok_none_iff hu⟩
    · exact ⟨_, fetch_issue_or_pr_ok_pr st fs ufs pfs cl c u huser hpr hcl hc hu,
        convert_to_date_ok_none_iff hc, convert_to_date_ok_none_iff hcl,
        convert_to_date_ok_none_iff hu⟩

/-- Witness for the amended C5 on the repository fixture, whose
`updated_at` is JSON `null` and whose other two timestamps are present. -/
theorem claim_c5_amended_witness :
    ∃ r, fetch_repository 200 (.obj repoJson) = .ok r ∧
      (r.stats.created_at = none ↔ truthyOpt (jlookup repoJson "created_at") = false) ∧
      (r.stats.pushed_at = none ↔ truthyOpt (jlookup repoJson "pushed_at") = false) ∧
      (r.stats.updated_at = none ↔ truthyOpt (jlookup repoJson "updated_at") = false) :=
  claim_c5_amended.1 200 repoJson ownerJson (some ⟨2023, 5, 6, 7, 8, 9⟩)
    (some ⟨2021, 1, 2, 3, 4, 5⟩) none rfl rfl rfl rfl

/-- Counterexample to claim C6: `strptime` is laxer than the exact
`YYYY-MM-DDTHH:MM:SSZ` shape — it accepts single-digit fields — and
stricter — a string of the exact shape naming February 30 is rejected. -/
theorem claim_c6_counterexample :
    Dates.convert_to_date (some (.str "2023-1-2T3:4:5Z")) =
      .ok (some ⟨2023, 1, 2, 3, 4, 5⟩) ∧
    Dates.convert_to_date (some (.str "2023-02-30T00:00:00Z")) =
      .error .valueError :=
  ⟨rfl, rfl⟩

/-- Claim C6 as amended: the converter returns `None` on `None` and on
the empty string; it returns the corresponding timestamp exactly for the
strings that render a valid calendar timestamp (year 1-9999, second at
most 59) with a four-digit year and one-or-two-digit month, day, hour,
minute and second (letter literals case-insensitive); every other
non-empty string fails with the `ValueError` the spec calls `ParseError`. -/
theorem claim_c6_amended :
    Dates.convert_to_date none = .ok none ∧
    Dates.convert_to_date (some (.str "")) = .ok none ∧
    (∀ f p, ValidDT f →
      Dates.convert_to_date (some (.str (String.mk (fmtFlexList f p)))) = .ok (some f)) ∧
    (∀ s : String, s ≠ "" → ¬ FlexFormat s →
      Dates.convert_to_date (some (.str s)) = .error .valueError) := by
  refine ⟨rfl, rfl, fun f p hf => convert_to_date_fmtFlex f p hf, fun s hne hnf => ?_⟩
  rw [convert_to_date_some_eq]
  have hd : s.data ≠ [] := by
    intro h
    apply hne
    cases s with
    | mk l =>
      simp only at h
      subst h
      rfl
  have ht : pyTruthy (.str s) = true := by
    simp only [pyTruthy, Bool.not_eq_true']
    cases hl : s.data with
    | nil => exact absurd hl hd
    | cons a l => rfl
  rw [if_pos ht]
  show (match strptimeZ s with
    | some d => Except.ok (some d)
    | none => Except.error PyErr.valueError) = .error .valueError
  cases hZ : strptimeZ s with
  | some f =>
    obtain ⟨hv, p, hl⟩ := strptimeZ_some hZ
    exact absurd ⟨f, p, hv, hl⟩ hnf
  | none => rfl

/-- Witness for the amended C6: a rendered leap-day timestamp parses to
its fields, and the one-character string `"x"` fails with `ValueError`. -/
theorem claim_c6_amended_witness :
    Dates.convert_to_date (some (.str (String.mk (fmtFlexList ⟨2024, 2, 29, 23, 59, 59⟩
      ⟨true, true, true, true, true, false, false⟩)))) =
        .ok (some ⟨2024, 2, 29, 23, 59, 59⟩) ∧
    Dates.convert_to_date (some (.str "x")) = .error .valueError := by
  constructor
  · exact claim_c6_amended.2.2.1 ⟨2024, 2, 29, 23, 59, 59⟩
      ⟨true, true, true, true, true, false, false⟩ (by decide)
  · refine claim_c6_amended.2.2.2 "x" (by decide) ?_
    rintro ⟨f, p, hv, hd⟩
    have hlen := fmtFlexList_length_ge f p
    rw [← hd] at hlen
    have hx : ("x" : String).data.length = 1 := rfl
    omega

/-- Claim C7: every string in the valid `YYYY-MM-DDTHH:MM:SSZ` format —
the zero-padded rendering of a valid timestamp — is accepted by the
converter, and formatting the returned timestamp with the same format
reproduces the original string. -/
theorem claim_c7 (s : String) (h : ExactFormat s) :
    ∃ d, Dates.convert_to_date (some (.str s)) = .ok (some d) ∧ fmtExact d = s := by
  obtain ⟨f, hv, hs⟩ := h
  subst hs
  exact ⟨f, convert_to_date_fmtFlex f _ hv, rfl⟩

/-- Witness for C7 at a concrete exact-format string. -/
theorem claim_c7_witness :
    ∃ d, Dates.convert_to_date (some (.str (fmtExact ⟨2023, 4, 5, 6, 7, 8⟩))) =
      .ok (some d) ∧ fmtExact d = fmtExact ⟨2023, 4, 5, 6, 7, 8⟩ :=
  claim_c7 (fmtExact ⟨2023, 4, 5, 6, 7, 8⟩) ⟨⟨2023, 4, 5, 6, 7, 8⟩, by decide, rfl⟩

/-- Claim C8: the mapped user kind is `user` (Individual) exactly when
the sub-object's `type` value is the string `"User"`, `organization` for
every other value, and both fetch operations apply this same mapping
(`mapUserType`) to their `owner`/`user` sub-object. -/
theorem claim_c8 :
    (∀ t, (mapUserType t = .user ↔ t = some (.str "User")) ∧
      (t ≠ some (.str "User") → mapUserType t = .organization)) ∧
    (∀ st fs ofs p c u,
      jlookup fs "owner" = some (.obj ofs) →
      Dates.convert_to_date (jlookup fs "pushed_at") = .ok p →
      Dates.convert_to_date (jlookup fs "created_at") = .ok c →
      Dates.convert_to_date (jlookup fs "updated_at") = .ok u →
      (fetch_repository st (.obj fs)).map (fun r => r.owner.user_type) =
        .ok (mapUserType (jlookup ofs "type"))) ∧
    (∀ st fs ufs cl c u,
      jlookup fs "user" = some (.obj ufs) →
      (jlookup fs "pull_request" = none ∨
        ∃ pfs, jlookup fs "pull_request" = some (.obj pfs)) →
      Dates.convert_to_date (jlookup fs "closed_at") = .ok cl →
      Dates.convert_to_date (jlookup fs "created_at") = .ok c →
      Dates.convert_to_date (jlookup fs "updated_at") = .ok u →
      (fetch_issue_or_pr st (.obj fs)).map (fun r => r.author.user_type) =
        .ok (mapUserType (jlookup ufs "type"))) := by
  refine ⟨fun t => ⟨?_, ?_⟩, ?_, ?_⟩
  · cases t with
    | none => simp [mapUserType]
    | some v =>
      cases v with
      | str s => by_cases hs : s = "User" <;> simp [mapUserType, hs]
      | null => simp [mapUserType]
      | bool b => simp [mapUserType]
      | num n => simp [mapUserType]
      | arr l => simp [mapUserType]
      | obj l => simp [mapUserType]
  · intro hne
    cases t with
    | none => rfl
    | some v =>
      cases v with
      | str s =>
        simp only [mapUserType]
        rw [if_neg]
        intro hs
        exact hne (by rw [hs])
      | null => rfl
      | bool b => rfl
      | num n => rfl
      | arr l => rfl
      | obj l => rfl
  · intro st fs ofs p c u how hp hc hu
    rw [fetch_repository_ok st fs ofs p c u how hp hc hu]
    rfl
  · intro st fs ufs cl c u huser hpr hcl hc hu
    rcases hpr with hpr | ⟨pfs, hpr⟩
    · rw [fetch_issue_or_pr_ok_issue st fs ufs cl c u huser hpr hcl hc hu]
      rfl
    · rw [fetch_issue_or_pr_ok_pr st fs ufs pfs cl c u huser hpr hcl hc hu]
      rfl

/-- Witness for C8: the fixture owner of type `"Organization"` maps to
`organization`, and the fixture user of type `"User"` maps to `user`. -/
theorem claim_c8_witness :
    (fetch_repository 200 (.obj repoJson)).map (fun r => r.owner.user_type) =
      .ok .organization ∧
    (fetch_issue_or_pr 200 (.obj prJson)).map (fun r => r.author.user_type) =
      .ok .user := by
  have h1 := claim_c8.2.1 200 repoJson ownerJson (some ⟨2023, 5, 6, 7, 8, 9⟩)
    (some ⟨2021, 1, 2, 3, 4, 5⟩) none rfl rfl rfl rfl
  have h2 := claim_c8.2.2 200 prJson userJson none (some ⟨2022, 5, 6, 7, 8, 9⟩)
    (some ⟨2022, 5, 7, 0, 0, 0⟩) rfl (Or.inr ⟨_, rfl⟩) rfl rfl rfl
  rw [h1, h2]
  exact ⟨rfl, rfl⟩

/-- Counterexample to claim C9: the reference pattern finds exactly one
match in `"fix Disnake/disnake#123 and #456"`, not two — `#456` has no
repo name before `#`, which the pattern requires. -/
theorem claim_c9_counterexample :
    (findRefs "fix Disnake/disnake#123 and #456").length = 1 := rfl

/-- Claim C9 as amended: applying the reference pattern to
`"fix Disnake/disnake#123 and #456"` yields exactly one match, with org
`"Disnake"`, repo `"disnake"` and number 123; the bare `#456` is not a
match because the pattern requires at least one repo character before
the `#`. -/
theorem claim_c9_amended :
    findRefs "fix Disnake/disnake#123 and #456" =
      [{ org := some "Disnake", repo := "disnake", number := 123 }] := rfl

/-- Claim C10: the `convert_to_date` of `src/prismo/api/utils/dates.py`
and the one defined inline in `src/prismo/exts/api/github.py` compute
the same function — the same results and the same failures on every
input. -/
theorem claim_c10 (x : Option JVal) :
    ExtsApi.convert_to_date x = Dates.convert_to_date x := rfl

/-- Witness for C10 at a concrete timestamp string. -/
theorem claim_c10_witness :
    ExtsApi.convert_to_date (some (.str "2021-01-02T03:04:05Z")) =
      Dates.convert_to_date (some (.str "2021-01-02T03:04:05Z")) :=
  claim_c10 (some (.str "2021-01-02T03:04:05Z"))

end Prismo




